import Mathlib

/-!
Shallow embedding of the incremental geocoding reconciliation logic of
`src/geocode.py` (functions `geocode`, `safe_geocode`, `process_geocoding`).

Modelling conventions:
* A pandas cell value that may be a string or the float NaN (missing CSV cell)
  is `Val`.  Python truthiness: NaN is truthy, "" is falsy.
* Coordinates are modelled as `Int` (only presence/absence and equality of
  coordinates matter to the reconciliation logic, never float arithmetic).
* A DataFrame row is `Row`; its pandas index label is `Row.idx`.  `Row.extra`
  stands for all columns other than the geocoding key fields and
  Latitude/Longitude/Error.
* A raised-and-uncaught Python exception is `Except.error`.
* The external Nominatim geolocator is an oracle `Resolver`; a call can
  return a location, return None ("Location not found"), or raise.
* pandas semantics used by the merge step:
  - `existing_df.loc[label, ["Latitude","Longitude","Error"]] = vals` writes
    every row carrying that label, and when the label is absent it enlarges
    the frame: a new row is appended whose other columns are all NaN.
  - `rows_to_process.at[label, "Error"] = None` writes every row carrying
    that label.
  - `drop_duplicates(subset=keys, keep="last")` keeps, in order, each row
    whose key does not reappear later in the frame.
-/

namespace IsochroneMaps

/-- A pandas cell: either a string or the float NaN used for missing values. -/
inductive Val where
  | str (s : String)
  | nan
deriving DecidableEq, Repr

/-- Python truthiness of a cell: `""` is falsy, any other string and NaN are
truthy (`bool(float("nan")) = True`). -/
def Val.truthy : Val → Bool
  | .str s => !s.isEmpty
  | .nan => true

/-- `", ".join` accepts a cell only if it is a string; joining a float raises
`TypeError`. -/
def Val.asStr : Val → Except String String
  | .str s => .ok s
  | .nan => .error "sequence item: expected str instance, float found"

/-- Left-to-right check that every joined item is a string, stopping at the
first `TypeError`, as `str.join` iterates. -/
def strList : List Val → Except String (List String)
  | [] => .ok []
  | v :: vs =>
      match v.asStr with
      | .error e => .error e
      | .ok s =>
          match strList vs with
          | .error e => .error e
          | .ok rest => .ok (s :: rest)

/-- Line 25 of `geocode.py`:
`", ".join(filter(None, [address, city, state, zip_code]))`.
Falsy cells are skipped; a surviving non-string cell makes the join raise
(`Except.error`), and the exception propagates (the join happens before the
`try` block of `geocode`). -/
def pyFilterJoin (vs : List Val) : Except String String :=
  match strList (vs.filter Val.truthy) with
  | .error e => .error e
  | .ok parts => .ok (String.intercalate ", " parts)

/-- Outcome of one call to the external geolocator on a query string. -/
inductive ResolverOutcome where
  | found (lat lon : Int)
  | notFound
  | raises (msg : String)
deriving DecidableEq, Repr

/-- The external geocoding service, as an oracle from query strings. -/
abbrev Resolver := String → ResolverOutcome

/-- Lines 23-36, `geocode(address, city, state, zip_code)`.
Returns `Except.error` exactly when the join raises (line 25 is outside the
`try`); everything raised by the geolocator call itself is caught and turned
into an error triple. -/
def geocode (res : Resolver) (a c s z : Val) :
    Except String (Option Int × Option Int × Option String) :=
  match pyFilterJoin [a, c, s, z] with
  | .error e => .error e
  | .ok full =>
      .ok (match res full with
        | .found la lo => (some la, some lo, none)
        | .notFound => (none, none, some "Location not found")
        | .raises m =>
            (none, none, some ("Error geocoding address '" ++ full ++ "': " ++ m)))

/-- The `columns_to_geocode` mapping: `City`, `State`, `Zip` are always
present; `Address` is present only for the point-of-interest dataset. -/
structure ColMap where
  hasAddr : Bool
deriving DecidableEq, Repr

/-- One DataFrame row.  `idx` is the pandas index label; `extra` stands for
every column other than the key fields and Latitude/Longitude/Error. -/
structure Row where
  idx : Nat
  addrV : Val
  cityV : Val
  stateV : Val
  zipV : Val
  lat : Option Int
  lon : Option Int
  err : Option String
  extra : Val
deriving DecidableEq, Repr

/-- Line 82: `row.get(columns_to_geocode.get("Address", ""), "")` — when the
column map has no `Address` entry the lookup key is `""`, which no row has,
so the default `""` is returned. -/
def getAddrVal (cm : ColMap) (r : Row) : Val :=
  if cm.hasAddr then r.addrV else .str ""

/-- The query string that `geocode` would build for a row (line 25),
or the exception it raises. -/
def buildQuery (cm : ColMap) (r : Row) : Except String String :=
  pyFilterJoin [getAddrVal cm r, r.cityV, r.stateV, r.zipV]

/-- Lines 79-92, `safe_geocode(row)`: total wrapper; an exception escaping
`geocode` is caught and converted to a null-coordinate triple. -/
def safe_geocode (res : Resolver) (cm : ColMap) (r : Row) :
    Option Int × Option Int × Option String :=
  match geocode res (getAddrVal cm r) r.cityV r.stateV r.zipV with
  | .ok t => t
  | .error e => (none, none, some ("Unexpected error: " ++ e))

/-- The key-field tuple of a row: `df[columns_to_geocode.keys()].apply(tuple)`
(lines 57-60); the dict keys are `Address?, City, State, Zip` in order. -/
def rowKey (cm : ColMap) (r : Row) : List Val :=
  if cm.hasAddr then [r.addrV, r.cityV, r.stateV, r.zipV]
  else [r.cityV, r.stateV, r.zipV]

/-- A DataFrame: which of the three geocoding-result columns it has, plus its
rows.  When a column is absent, the corresponding `Row` field is ignored
(lines 70-76 add the column filled with `None` before any use). -/
structure DataFrame where
  hasLat : Bool
  hasLon : Bool
  hasErr : Bool
  rows : List Row
deriving DecidableEq, Repr

/-- The rows of a frame with absent result columns read as all-null, which is
what lines 70-76 produce and what `pd.concat` column-union produces. -/
def dfRows (d : DataFrame) : List Row :=
  d.rows.map fun r =>
    { r with lat := if d.hasLat then r.lat else none,
             lon := if d.hasLon then r.lon else none,
             err := if d.hasErr then r.err else none }

/-- Lines 70-76: add each of Latitude/Longitude/Error as a null column when
missing. -/
def ensureCols (d : DataFrame) : DataFrame :=
  { hasLat := true, hasLon := true, hasErr := true, rows := dfRows d }

/-- Lines 45-47 (and 137-140): clear `Error` on a row that has both
coordinates. -/
def clearErrIfCoords (r : Row) : Row :=
  if r.lat.isSome && r.lon.isSome then { r with err := none } else r

/-- Lines 50-54 and 95-99: a row is selected for geocoding when its error is
set or either coordinate is missing. -/
def needsProcessing (r : Row) : Bool :=
  r.err.isSome || r.lat.isNone || r.lon.isNone

/-- `drop_duplicates(subset=columns_to_geocode.keys(), keep="last")`
(lines 64-66 and 141-143): keep, in order, each row whose key-field tuple
does not occur again later. -/
def dropDupKeepLast (cm : ColMap) : List Row → List Row
  | [] => []
  | r :: rest =>
      if rowKey cm r ∈ rest.map (rowKey cm) then dropDupKeepLast cm rest
      else r :: dropDupKeepLast cm rest

/-- Line 107: write the (Latitude, Longitude, Error) triple produced by
`safe_geocode` back into the row. -/
def applyGeo (t : Option Int × Option Int × Option String) (r : Row) : Row :=
  { r with lat := t.1, lon := t.2.1, err := t.2.2 }

/-- Lines 105-107: apply `safe_geocode` to every selected row. -/
def geocodedRows (res : Resolver) (cm : ColMap) (work : List Row) : List Row :=
  work.map fun r => applyGeo (safe_geocode res cm r) r

/-- Lines 113-126 (first merge loop): for every processed row whose label is
in the prior frame's index and whose coordinates are now valid,
`rows_to_process.at[label, "Error"] = None` — which clears `Error` on every
processed row carrying that label. -/
def postClearErr (existingIdx : List Nat) (gs : List Row) : List Row :=
  gs.map fun g =>
    if gs.any (fun h =>
        h.idx == g.idx && decide (h.idx ∈ existingIdx)
          && h.lat.isSome && h.lon.isSome)
    then { g with err := none } else g

/-- The all-NaN row that pandas enlargement creates before filling in the
three assigned columns, when `.loc` is given an absent index label. -/
def enlargeRow (g : Row) : Row :=
  { idx := g.idx, addrV := .nan, cityV := .nan, stateV := .nan, zipV := .nan,
    lat := g.lat, lon := g.lon, err := g.err, extra := .nan }

/-- Line 130: `existing_df.loc[label, ["Latitude","Longitude","Error"]] = vals`.
If the label is present, every row carrying it gets the new triple; otherwise
the frame is enlarged by an appended row whose other columns are NaN. -/
def locSetLLE (acc : List Row) (g : Row) : List Row :=
  if g.idx ∈ acc.map Row.idx then
    acc.map fun e =>
      if e.idx = g.idx then { e with lat := g.lat, lon := g.lon, err := g.err }
      else e
  else acc ++ [enlargeRow g]

/-- Lines 129-132 (second merge loop): fold the processed rows into the prior
frame, label by label. -/
def mergeIntoExisting (existing1 : List Row) (gs : List Row) : List Row :=
  gs.foldl locSetLLE existing1

/-- Result of one `process_geocoding` run: `written = none` when the function
returns without touching the output file (line 103 or the work set being the
whole story), and the number of geolocator invocations actually made
(`geolocator.geocode` is reached iff the query join does not raise). -/
structure RunResult where
  written : Option DataFrame
  calls : Nat
deriving DecidableEq, Repr

/-- Whether building the query for a row succeeds (so the geolocator is
actually invoked for it). -/
def queryOk (cm : ColMap) (r : Row) : Bool :=
  match buildQuery cm r with
  | .ok _ => true
  | .error _ => false

/-- Count of external geolocator calls made while processing a work set. -/
def countCalls (cm : ColMap) (work : List Row) : Nat :=
  (work.filter (queryOk cm)).length

/-- Lines 42-66 distilled: the frame `df_to_geocode` built when a prior
persisted file exists — retry rows of the prior state concatenated with the
fresh rows whose key tuple is new, deduplicated by key keeping the last. -/
def dfToGeocodePrior (cm : ColMap) (d : DataFrame) (existing : List Row) :
    List Row :=
  let existing1 := existing.map clearErrIfCoords
  let rtp0 := existing1.filter needsProcessing
  let newRows :=
    (dfRows d).filter fun r =>
      !decide (rowKey cm r ∈ existing1.map (rowKey cm))
  dropDupKeepLast cm (rtp0 ++ newRows)

/-- Lines 95-99: the rows actually geocoded in a run. -/
def workSet (cm : ColMap) (d : DataFrame) (prior : Option DataFrame) :
    List Row :=
  match prior with
  | some p => (dfToGeocodePrior cm d p.rows).filter needsProcessing
  | none => (dfRows d).filter needsProcessing

/-- Lines 40-148, `process_geocoding(df, output_file, columns_to_geocode)`
when the output file already exists with rows `existing`. -/
def processWithPrior (res : Resolver) (cm : ColMap) (d : DataFrame)
    (existing : List Row) : RunResult :=
  let existing1 := existing.map clearErrIfCoords
  let work := (dfToGeocodePrior cm d existing).filter needsProcessing
  if work.isEmpty then { written := none, calls := 0 }
  else
    let gs := geocodedRows res cm work
    let gs2 := postClearErr (existing.map Row.idx) gs
    { written := some { hasLat := true, hasLon := true, hasErr := true,
                        rows := mergeIntoExisting existing1 gs2 },
      calls := countCalls cm work }

/-- Lines 40-148 when no output file exists yet: geocode the needed rows,
clear errors where coordinates are valid, and concatenate back onto the
fresh input with key-deduplication keeping the last occurrence. -/
def processNoPrior (res : Resolver) (cm : ColMap) (d : DataFrame) : RunResult :=
  let nrows := dfRows d
  let work := nrows.filter needsProcessing
  if work.isEmpty then { written := none, calls := 0 }
  else
    let gs := geocodedRows res cm work
    let gs2 := gs.map clearErrIfCoords
    { written := some { hasLat := true, hasLon := true, hasErr := true,
                        rows := dropDupKeepLast cm (nrows ++ gs2) },
      calls := countCalls cm work }

/-- One full `process_geocoding` run against an optional persisted state. -/
def process_geocoding (res : Resolver) (cm : ColMap) (d : DataFrame)
    (prior : Option DataFrame) : RunResult :=
  match prior with
  | some p => processWithPrior res cm d p.rows
  | none => processNoPrior res cm d

/-! Definitions used only to state properties. -/

/-- Every column of a row except Latitude/Longitude/Error: the index label,
the key fields, and the remaining payload columns. -/
def frameFields (r : Row) : Nat × Val × Val × Val × Val × Val :=
  (r.idx, r.addrV, r.cityV, r.stateV, r.zipV, r.extra)

/-- The first row of a frame carrying a given index label
(`df.loc[label]` on a unique label). -/
def lookupIdx (l : List Row) (i : Nat) : Option Row :=
  l.find? fun r => r.idx == i

/-- Whether a cell holds a string (rather than NaN). -/
def strVal : Val → Bool
  | .str _ => true
  | .nan => false

/-- A row whose four geocoding fields are all strings, as read from a fully
populated CSV. -/
def goodRow (r : Row) : Bool :=
  strVal r.addrV && strVal r.cityV && strVal r.stateV && strVal r.zipV

/-- A record is resolved iff both coordinates are present. -/
def resolvedRow (r : Row) : Bool :=
  r.lat.isSome && r.lon.isSome

/-- The persisted-state invariant: a record holding both coordinates carries
no error. -/
def errConsistent (r : Row) : Prop :=
  r.lat.isSome = true → r.lon.isSome = true → r.err = none

/-! Concrete fixtures used by counterexamples and witnesses. -/

/-- The `cities.csv` column map: City/State/Zip, no Address. -/
def cmCSZ : ColMap := ⟨false⟩

/-- A fully resolved persisted row with key (A, S, 1) at index label 0. -/
def priorRowA : Row :=
  ⟨0, .str "", .str "A", .str "S", .str "1", some 1, some 2, none, .str "pa"⟩

/-- A fresh-input row with the new key (B, S, 2), also at index label 0. -/
def freshRowB : Row :=
  ⟨0, .str "", .str "B", .str "S", .str "2", none, none, none, .str "pb"⟩

/-- A resolver that locates "B, S, 2" and finds nothing else. -/
def resolverFindsB : Resolver :=
  fun q => if q = "B, S, 2" then .found 3 4 else .notFound

/-- A resolver for which no query ever resolves. -/
def resolverNone : Resolver := fun _ => .notFound

/-- A resolver that succeeds on every query. -/
def resolverAll : Resolver := fun _ => .found 3 4

/-- Fresh input containing only the new row (B, S, 2). -/
def frameB : DataFrame := ⟨true, true, true, [freshRowB]⟩

/-- Fresh copy of the already-resolved key (A, S, 1), without coordinates. -/
def freshRowA : Row :=
  ⟨0, .str "", .str "A", .str "S", .str "1", none, none, none, .str "pa"⟩

/-- A genuinely new fresh-input row (C, S, 3) at index label 1. -/
def freshRowC : Row :=
  ⟨1, .str "", .str "C", .str "S", .str "3", none, none, none, .str "pc"⟩

/-- A genuinely new fresh-input row (D, S, 4) at index label 2. -/
def freshRowD : Row :=
  ⟨2, .str "", .str "D", .str "S", .str "4", none, none, none, .str "pd"⟩

/-- Fresh input: the old key plus two new keys at fresh index labels. -/
def frameACD : DataFrame := ⟨true, true, true, [freshRowA, freshRowC, freshRowD]⟩

/-- A single unresolved fresh-input row with key (K, S, 5). -/
def freshRowK : Row :=
  ⟨0, .str "", .str "K", .str "S", .str "5", none, none, none, .str "pk"⟩

/-- Fresh input holding only the row (K, S, 5). -/
def frameK : DataFrame := ⟨true, true, true, [freshRowK]⟩

/-- The spec scenario row: Springfield / IL / 62701, persisted with an error
from a failed earlier attempt. -/
def priorSpringfield : Row :=
  ⟨0, .str "", .str "Springfield", .str "IL", .str "62701",
   none, none, some "Location not found", .str "x"⟩

/-- Fresh-input copy of the Springfield row (no coordinates yet). -/
def freshSpringfield : Row :=
  ⟨0, .str "", .str "Springfield", .str "IL", .str "62701",
   none, none, none, .str "x"⟩

/-- Fresh input holding only the Springfield row. -/
def frameSpringfield : DataFrame := ⟨true, true, true, [freshSpringfield]⟩

/-- The persisted state holding only the errored Springfield row. -/
def priorFrameSpringfield : DataFrame := ⟨true, true, true, [priorSpringfield]⟩

/-- A resolver that now locates the Springfield query. -/
def resolverSpringfield : Resolver :=
  fun q => if q = "Springfield, IL, 62701" then .found 39 (-89) else .notFound

/-- A row whose City cell is NaN (missing CSV value), which makes the query
join raise `TypeError` before the geolocator is reached. -/
def rowNanCity : Row :=
  ⟨7, .str "", .nan, .str "S", .str "1", none, none, none, .str "x"⟩

/-- The `poi.csv` column map: Address is one of the key fields. -/
def cmAddr : ColMap := ⟨true⟩

/-- A poi-style row whose Address cell is absent (NaN in pandas) while
city/state/zip are populated. -/
def rowNanAddress : Row :=
  ⟨8, .nan, .str "Springfield", .str "IL", .str "62701",
   none, none, none, .str "x"⟩

/-- A resolver that raises an operational fault on every query. -/
def resolverRaises : Resolver := fun _ => .raises "timeout"

/-- A row that arrives with coordinates and a stale error already present. -/
def rowWithCoords : Row :=
  ⟨3, .str "", .str "E", .str "S", .str "6", some 9, some 9, some "stale", .str "w"⟩

/-- A fresh input whose CSV has no Latitude/Longitude/Error columns at all. -/
def frameNoCols : DataFrame := ⟨false, false, false, [rowWithCoords]⟩

/-- What the merge produces from `frameB` against prior `[priorRowA]`: the
prior (A, S, 1) row overwritten with (B, S, 2)'s coordinates. -/
def mergedFrameB : DataFrame :=
  ⟨true, true, true, [{ priorRowA with lat := some 3, lon := some 4 }]⟩

/-- The output of re-running the Springfield row against a resolver that now
locates it: coordinates set, error cleared. -/
def outSpringfield : DataFrame :=
  ⟨true, true, true,
   [{ priorSpringfield with lat := some 39, lon := some (-89), err := none }]⟩

/-! Helper lemmas about the per-row resolution wrapper. -/

theorem safe_geocode_of_ok (res : Resolver) (cm : ColMap) (r : Row) (q : String)
    (hq : buildQuery cm r = .ok q) :
    safe_geocode res cm r =
      (match res q with
        | .found la lo => (some la, some lo, none)
        | .notFound => (none, none, some "Location not found")
        | .raises m =>
            (none, none, some ("Error geocoding address '" ++ q ++ "': " ++ m))) := by
  unfold safe_geocode geocode
  rw [show pyFilterJoin [getAddrVal cm r, r.cityV, r.stateV, r.zipV] = Except.ok q from hq]

theorem safe_geocode_found (res : Resolver) (cm : ColMap) (r : Row) (q : String)
    (la lo : Int) (hq : buildQuery cm r = .ok q) (hr : res q = .found la lo) :
    safe_geocode res cm r = (some la, some lo, none) := by
  rw [safe_geocode_of_ok res cm r q hq, hr]

theorem safe_geocode_notFound (res : Resolver) (cm : ColMap) (r : Row) (q : String)
    (hq : buildQuery cm r = .ok q) (hr : res q = .notFound) :
    safe_geocode res cm r = (none, none, some "Location not found") := by
  rw [safe_geocode_of_ok res cm r q hq, hr]

theorem safe_geocode_raises (res : Resolver) (cm : ColMap) (r : Row) (q m : String)
    (hq : buildQuery cm r = .ok q) (hr : res q = .raises m) :
    safe_geocode res cm r =
      (none, none, some ("Error geocoding address '" ++ q ++ "': " ++ m)) := by
  rw [safe_geocode_of_ok res cm r q hq, hr]

theorem safe_geocode_of_error (res : Resolver) (cm : ColMap) (r : Row) (e : String)
    (he : buildQuery cm r = .error e) :
    safe_geocode res cm r = (none, none, some ("Unexpected error: " ++ e)) := by
  unfold safe_geocode geocode
  rw [show pyFilterJoin [getAddrVal cm r, r.cityV, r.stateV, r.zipV] = Except.error e from he]

theorem safe_geocode_cases (res : Resolver) (cm : ColMap) (r : Row) :
    (∃ la lo, safe_geocode res cm r = (some la, some lo, none)) ∨
      (∃ m, safe_geocode res cm r = (none, none, some m)) := by
  cases hb : buildQuery cm r with
  | ok q =>
      rw [safe_geocode_of_ok res cm r q hb]
      cases res q with
      | found la lo => exact Or.inl ⟨la, lo, rfl⟩
      | notFound => exact Or.inr ⟨_, rfl⟩
      | raises m => exact Or.inr ⟨_, rfl⟩
  | error e => exact Or.inr ⟨_, safe_geocode_of_error res cm r e hb⟩

/-! Helper lemmas about query construction. -/

theorem strList_str (l : List String) :
    strList (l.map Val.str) = Except.ok l := by
  induction l with
  | nil => rfl
  | cons s l ih => simp [strList, Val.asStr, ih]

theorem pyFilterJoin_str (vs : List String) :
    pyFilterJoin (vs.map Val.str) =
      .ok (String.intercalate ", " (vs.filter fun s => !s.isEmpty)) := by
  unfold pyFilterJoin
  rw [show (vs.map Val.str).filter Val.truthy
        = ((vs.filter fun s => !s.isEmpty).map Val.str) from ?_]
  · rw [strList_str]
  · rw [List.filter_map]
    rfl

theorem strList_ok (l : List Val) (h : ∀ v ∈ l, strVal v = true) :
    ∃ parts, strList l = .ok parts := by
  induction l with
  | nil => exact ⟨[], rfl⟩
  | cons v l ih =>
      have hv := h v (List.mem_cons_self _ _)
      obtain ⟨parts, hp⟩ := ih fun x hx => h x (List.mem_cons_of_mem _ hx)
      cases v with
      | str s => exact ⟨s :: parts, by simp [strList, Val.asStr, hp]⟩
      | nan => simp [strVal] at hv

theorem pyFilterJoin_ok (vs : List Val) (h : ∀ v ∈ vs, strVal v = true) :
    ∃ s, pyFilterJoin vs = .ok s := by
  obtain ⟨parts, hp⟩ :=
    strList_ok (vs.filter Val.truthy)
      fun v hv => h v (List.mem_of_mem_filter hv)
  exact ⟨String.intercalate ", " parts, by unfold pyFilterJoin; rw [hp]⟩

theorem strList_error_of_nan (l : List Val) (h : Val.nan ∈ l) :
    ∃ e, strList l = .error e := by
  induction l with
  | nil => simp at h
  | cons v l ih =>
      cases v with
      | nan => exact ⟨_, rfl⟩
      | str s =>
          rcases List.mem_cons.mp h with h2 | h2
          · exact absurd h2 (by simp)
          · obtain ⟨e, he⟩ := ih h2
            exact ⟨e, by simp [strList, Val.asStr, he]⟩

theorem pyFilterJoin_error_of_nan (vs : List Val) (h : Val.nan ∈ vs) :
    ∃ e, pyFilterJoin vs = .error e := by
  have hf : Val.nan ∈ vs.filter Val.truthy :=
    List.mem_filter.mpr ⟨h, rfl⟩
  obtain ⟨e, he⟩ := strList_error_of_nan _ hf
  exact ⟨e, by unfold pyFilterJoin; rw [he]⟩

theorem queryOk_false_of_error (cm : ColMap) (r : Row) (e : String)
    (h : buildQuery cm r = .error e) : queryOk cm r = false := by
  unfold queryOk
  rw [h]

theorem buildQuery_ok_of_goodRow (cm : ColMap) (r : Row) (h : goodRow r = true) :
    ∃ q, buildQuery cm r = .ok q := by
  simp only [goodRow, Bool.and_eq_true] at h
  apply pyFilterJoin_ok
  intro v hv
  simp only [List.mem_cons, List.not_mem_nil, or_false] at hv
  rcases hv with rfl | rfl | rfl | rfl
  · unfold getAddrVal
    split
    · exact h.1.1.1
    · rfl
  · exact h.1.1.2
  · exact h.1.2
  · exact h.2

/-! Helper lemmas: the transformations never touch key fields or labels. -/

theorem rowKey_applyGeo (cm : ColMap) (t : Option Int × Option Int × Option String)
    (r : Row) : rowKey cm (applyGeo t r) = rowKey cm r := by
  unfold rowKey applyGeo
  split <;> rfl

theorem rowKey_clearErr (cm : ColMap) (r : Row) :
    rowKey cm (clearErrIfCoords r) = rowKey cm r := by
  unfold rowKey clearErrIfCoords
  split <;> split <;> rfl

theorem idx_applyGeo (t : Option Int × Option Int × Option String) (r : Row) :
    (applyGeo t r).idx = r.idx := rfl

theorem idx_clearErr (r : Row) : (clearErrIfCoords r).idx = r.idx := by
  unfold clearErrIfCoords
  split <;> rfl

theorem frameFields_clearErr (r : Row) :
    frameFields (clearErrIfCoords r) = frameFields r := by
  unfold frameFields clearErrIfCoords
  split <;> rfl

theorem map_rowKey_clearErr (cm : ColMap) (l : List Row) :
    (l.map clearErrIfCoords).map (rowKey cm) = l.map (rowKey cm) := by
  rw [List.map_map]
  exact List.map_congr_left fun r _ => rowKey_clearErr cm r

/-! Helper lemmas about `drop_duplicates(keep="last")`. -/

theorem mem_of_mem_dropDup (cm : ColMap) (l : List Row) (r : Row)
    (h : r ∈ dropDupKeepLast cm l) : r ∈ l := by
  induction l with
  | nil => simp [dropDupKeepLast] at h
  | cons a l ih =>
      unfold dropDupKeepLast at h
      split at h
      · exact List.mem_cons_of_mem a (ih h)
      · rcases List.mem_cons.mp h with rfl | h2
        · exact List.mem_cons_self _ _
        · exact List.mem_cons_of_mem a (ih h2)

theorem key_mem_dropDup (cm : ColMap) (l : List Row) (k : List Val) :
    k ∈ (dropDupKeepLast cm l).map (rowKey cm) ↔ k ∈ l.map (rowKey cm) := by
  induction l with
  | nil => simp [dropDupKeepLast]
  | cons a l ih =>
      unfold dropDupKeepLast
      split
      · next hmem =>
          simp only [List.map_cons, List.mem_cons]
          rw [ih]
          constructor
          · exact fun h => Or.inr h
          · rintro (rfl | h)
            · exact hmem
            · exact h
      · simp only [List.map_cons, List.mem_cons, ih]

theorem mem_dropDup_append (cm : ColMap) (l1 l2 : List Row) (r : Row)
    (h : r ∈ dropDupKeepLast cm (l1 ++ l2)) :
    r ∈ l2 ∨ (r ∈ l1 ∧ rowKey cm r ∉ l2.map (rowKey cm)) := by
  induction l1 with
  | nil => exact Or.inl (mem_of_mem_dropDup cm l2 r h)
  | cons a l1 ih =>
      rw [List.cons_append] at h
      unfold dropDupKeepLast at h
      split at h
      · rcases ih h with h2 | ⟨h3, h4⟩
        · exact Or.inl h2
        · exact Or.inr ⟨List.mem_cons_of_mem a h3, h4⟩
      · next hnot =>
          rcases List.mem_cons.mp h with rfl | h2
          · refine Or.inr ⟨List.mem_cons_self _ _, fun hk => ?_⟩
            exact hnot (by rw [List.map_append]; exact List.mem_append_right _ hk)
          · rcases ih h2 with h3 | ⟨h4, h5⟩
            · exact Or.inl h3
            · exact Or.inr ⟨List.mem_cons_of_mem a h4, h5⟩

/-! Helper lemmas: the coordinates-present-implies-no-error invariant is
established and preserved at every stage of a run. -/

theorem errConsistent_clearErr (r : Row) : errConsistent (clearErrIfCoords r) := by
  unfold errConsistent clearErrIfCoords
  split
  · intro _ _
    rfl
  · next h =>
      intro hla hlo
      exact absurd (by rw [hla, hlo]; rfl) h

theorem errConsistent_applyGeo (res : Resolver) (cm : ColMap) (r : Row) :
    errConsistent (applyGeo (safe_geocode res cm r) r) := by
  rcases safe_geocode_cases res cm r with ⟨la, lo, h⟩ | ⟨m, h⟩ <;>
    · rw [h]
      intro hla hlo
      first
        | rfl
        | simp [applyGeo] at hla

theorem errConsistent_geocoded (res : Resolver) (cm : ColMap) (work : List Row)
    (g : Row) (hg : g ∈ geocodedRows res cm work) : errConsistent g := by
  obtain ⟨r, _, rfl⟩ := List.mem_map.mp hg
  exact errConsistent_applyGeo res cm r

theorem errConsistent_postClear (idxs : List Nat) (gs : List Row)
    (h : ∀ g ∈ gs, errConsistent g) :
    ∀ g ∈ postClearErr idxs gs, errConsistent g := by
  intro g hg
  obtain ⟨g0, hg0, rfl⟩ := List.mem_map.mp hg
  split
  · intro _ _
    rfl
  · exact h g0 hg0

theorem errConsistent_locSet (acc : List Row) (g : Row)
    (hacc : ∀ a ∈ acc, errConsistent a) (hg : errConsistent g) :
    ∀ a ∈ locSetLLE acc g, errConsistent a := by
  intro a ha
  unfold locSetLLE at ha
  split at ha
  · obtain ⟨e, he, rfl⟩ := List.mem_map.mp ha
    split
    · intro hla hlo
      exact hg hla hlo
    · exact hacc e he
  · rcases List.mem_append.mp ha with h2 | h2
    · exact hacc a h2
    · simp only [List.mem_singleton] at h2
      subst h2
      intro hla hlo
      exact hg hla hlo

theorem errConsistent_merge (gs acc : List Row)
    (hacc : ∀ a ∈ acc, errConsistent a) (hgs : ∀ g ∈ gs, errConsistent g) :
    ∀ a ∈ mergeIntoExisting acc gs, errConsistent a := by
  induction gs generalizing acc with
  | nil => exact hacc
  | cons g gs ih =>
      exact ih (locSetLLE acc g)
        (errConsistent_locSet acc g hacc (hgs g (List.mem_cons_self _ _)))
        fun x hx => hgs x (List.mem_cons_of_mem g hx)

/-! Helper lemmas: the merge loop only ever writes the three result columns
of pre-existing rows, and appends beyond them. -/

theorem locSet_length (acc : List Row) (g : Row) :
    acc.length ≤ (locSetLLE acc g).length := by
  unfold locSetLLE
  split
  · rw [List.length_map]
  · rw [List.length_append]
    exact Nat.le_add_right _ _

theorem locSet_frame (acc : List Row) (g : Row) (i : Nat) (hi : i < acc.length) :
    ((locSetLLE acc g)[i]?).map frameFields = (acc[i]?).map frameFields := by
  unfold locSetLLE
  split
  · rw [List.getElem?_map]
    cases h : acc[i]? with
    | none => rfl
    | some e =>
        simp only [Option.map_some']
        congr 1
        unfold frameFields
        split <;> rfl
  · rw [List.getElem?_append, if_pos hi]

theorem merge_length (gs acc : List Row) :
    acc.length ≤ (mergeIntoExisting acc gs).length := by
  induction gs generalizing acc with
  | nil => exact Nat.le_refl _
  | cons g gs ih => exact Nat.le_trans (locSet_length acc g) (ih (locSetLLE acc g))

theorem merge_frame (gs acc : List Row) (i : Nat) (hi : i < acc.length) :
    ((mergeIntoExisting acc gs)[i]?).map frameFields = (acc[i]?).map frameFields := by
  induction gs generalizing acc with
  | nil => rfl
  | cons g gs ih =>
      have h1 : i < (locSetLLE acc g).length := Nat.lt_of_lt_of_le hi (locSet_length acc g)
      calc ((mergeIntoExisting (locSetLLE acc g) gs)[i]?).map frameFields
          = (((locSetLLE acc g)[i]?)).map frameFields := ih (locSetLLE acc g) h1
        _ = (acc[i]?).map frameFields := locSet_frame acc g i hi

/-! Helper lemmas: looking a row up by its index label through the merge. -/

theorem lookupIdx_some_idx (l : List Row) (i : Nat) (r : Row)
    (h : lookupIdx l i = some r) : r.idx = i := by
  have := List.find?_some h
  simpa using this

theorem lookupIdx_map_pres (f : Row → Row) (hf : ∀ e, (f e).idx = e.idx)
    (l : List Row) (i : Nat) :
    lookupIdx (l.map f) i = (lookupIdx l i).map f := by
  induction l with
  | nil => rfl
  | cons a l ih =>
      unfold lookupIdx at ih ⊢
      simp only [List.map_cons, List.find?]
      rw [hf a]
      cases h : (a.idx == i) <;> simp [h, ih]

theorem lookupIdx_eq_none (l : List Row) (i : Nat) (h : i ∉ l.map Row.idx) :
    lookupIdx l i = none := by
  unfold lookupIdx
  rw [List.find?_eq_none]
  intro a ha hb
  exact h (List.mem_map.mpr ⟨a, ha, by simpa using hb⟩)

theorem lookupIdx_mem_isSome (l : List Row) (i : Nat) (h : i ∈ l.map Row.idx) :
    ∃ r, lookupIdx l i = some r ∧ r.idx = i := by
  induction l with
  | nil => simp at h
  | cons a l ih =>
      unfold lookupIdx
      simp only [List.find?]
      cases hb : (a.idx == i) with
      | true => exact ⟨a, rfl, by simpa using hb⟩
      | false =>
          simp only [List.map_cons, List.mem_cons] at h
          rcases h with rfl | h2
          · simp at hb
          · exact ih h2

theorem lookupIdx_append_left (l1 l2 : List Row) (i : Nat) (r : Row)
    (h : lookupIdx l1 i = some r) : lookupIdx (l1 ++ l2) i = some r := by
  induction l1 with
  | nil => simp [lookupIdx, List.find?] at h
  | cons a l1 ih =>
      unfold lookupIdx at h ih ⊢
      simp only [List.cons_append, List.find?] at h ⊢
      cases hb : (a.idx == i) <;> rw [hb] at h <;> simp only [] at h ⊢
      · exact ih h
      · exact h

theorem lookupIdx_append_none (l1 l2 : List Row) (i : Nat)
    (h : lookupIdx l1 i = none) : lookupIdx (l1 ++ l2) i = lookupIdx l2 i := by
  induction l1 with
  | nil => rfl
  | cons a l1 ih =>
      unfold lookupIdx at h ih ⊢
      simp only [List.cons_append, List.find?] at h ⊢
      cases hb : (a.idx == i) <;> rw [hb] at h <;> simp only [] at h ⊢
      · exact ih h
      · exact absurd h (by simp)

theorem lookupIdx_locSet_eq (acc : List Row) (g : Row) (i : Nat) (hgi : g.idx = i) :
    ∃ r, lookupIdx (locSetLLE acc g) i = some r ∧
      r.lat = g.lat ∧ r.lon = g.lon ∧ r.err = g.err := by
  unfold locSetLLE
  split
  · next hmem =>
      rw [lookupIdx_map_pres _ (fun e => by split <;> rfl)]
      obtain ⟨e, he, hei⟩ := lookupIdx_mem_isSome acc i (hgi ▸ hmem)
      rw [he]
      simp only [Option.map_some']
      rw [if_pos (by rw [hei, hgi])]
      exact ⟨_, rfl, rfl, rfl, rfl⟩
  · next hmem =>
      have hnone : lookupIdx acc i = none :=
        lookupIdx_eq_none acc i (by rw [← hgi]; exact hmem)
      rw [lookupIdx_append_none _ _ _ hnone]
      refine ⟨enlargeRow g, ?_, rfl, rfl, rfl⟩
      unfold lookupIdx
      simp [List.find?, enlargeRow, hgi]

theorem lookupIdx_locSet_ne (acc : List Row) (g : Row) (i : Nat) (hgi : g.idx ≠ i) :
    lookupIdx (locSetLLE acc g) i = lookupIdx acc i := by
  unfold locSetLLE
  split
  · rw [lookupIdx_map_pres _ (fun e => by split <;> rfl)]
    cases h : lookupIdx acc i with
    | none => rfl
    | some r =>
        have hr : r.idx = i := lookupIdx_some_idx acc i r h
        simp only [Option.map_some']
        rw [if_neg (by rw [hr]; exact fun he => hgi he.symm)]
  · cases h : lookupIdx acc i with
    | none =>
        rw [lookupIdx_append_none _ _ _ h]
        unfold lookupIdx
        simp only [List.find?]
        rw [show ((enlargeRow g).idx == i) = false from by simp [enlargeRow, hgi]]
    | some r => exact lookupIdx_append_left _ _ _ _ h

theorem lookup_merge_err_none (i : Nat) (gs acc : List Row)
    (hall : ∀ g ∈ gs, g.idx = i → g.err = none)
    (hstart : (∃ g ∈ gs, g.idx = i) ∨
      (∃ r, lookupIdx acc i = some r ∧ r.err = none)) :
    ∃ r, lookupIdx (mergeIntoExisting acc gs) i = some r ∧ r.err = none := by
  induction gs generalizing acc with
  | nil =>
      rcases hstart with ⟨g, hg, _⟩ | h
      · simp at hg
      · exact h
  | cons g gs ih =>
      by_cases hgi : g.idx = i
      · obtain ⟨r, hr, _, _, herr⟩ := lookupIdx_locSet_eq acc g i hgi
        refine ih (locSetLLE acc g)
          (fun x hx hxi => hall x (List.mem_cons_of_mem g hx) hxi) (Or.inr ⟨r, hr, ?_⟩)
        rw [herr]
        exact hall g (List.mem_cons_self _ _) hgi
      · rcases hstart with ⟨g2, hg2, hg2i⟩ | ⟨r, hr, herr⟩
        · rcases List.mem_cons.mp hg2 with rfl | hg2m
          · exact absurd hg2i hgi
          · exact ih (locSetLLE acc g)
              (fun x hx hxi => hall x (List.mem_cons_of_mem g hx) hxi)
              (Or.inl ⟨g2, hg2m, hg2i⟩)
        · refine ih (locSetLLE acc g)
            (fun x hx hxi => hall x (List.mem_cons_of_mem g hx) hxi) (Or.inr ⟨r, ?_, herr⟩)
          rw [lookupIdx_locSet_ne acc g i hgi]
          exact hr

theorem isEmpty_eq_false_of_ne (l : List Row) (h : l ≠ []) : l.isEmpty = false := by
  cases l with
  | nil => exact absurd rfl h
  | cons a l => rfl

theorem eq_nil_of_isEmpty (l : List Row) (h : l.isEmpty = true) : l = [] := by
  cases l with
  | nil => rfl
  | cons a l => exact absurd h (by simp [List.isEmpty])

theorem resolvedRow_clearErr (r : Row) :
    resolvedRow (clearErrIfCoords r) = resolvedRow r := by
  unfold resolvedRow clearErrIfCoords
  split <;> rfl

theorem needsProcessing_clearErr_of_resolved (r : Row) (h : resolvedRow r = true) :
    needsProcessing (clearErrIfCoords r) = false := by
  rcases r with ⟨i, a, c, s, z, lat, lon, err, ex⟩
  cases lat with
  | none => simp [resolvedRow] at h
  | some la =>
      cases lon with
      | none => simp [resolvedRow] at h
      | some lo => simp [clearErrIfCoords, needsProcessing]

theorem needsProcessing_of_not_resolved (r : Row) (h : ¬ resolvedRow r = true) :
    needsProcessing r = true := by
  rcases r with ⟨i, a, c, s, z, lat, lon, err, ex⟩
  cases lat with
  | none => simp [needsProcessing]
  | some la =>
      cases lon with
      | none => simp [needsProcessing]
      | some lo => simp [resolvedRow] at h

theorem goodRow_dfRows (d : DataFrame) (hgood : ∀ r ∈ d.rows, goodRow r = true) :
    ∀ r ∈ dfRows d, goodRow r = true := by
  intro r hr
  obtain ⟨r0, hr0, rfl⟩ := List.mem_map.mp hr
  exact hgood r0 hr0

/-! The claims. -/

/-- C10: the per-row resolution wrapper `safe_geocode` is total: every input
row yields a three-element (latitude, longitude, error) result — either a
success triple or a null-coordinate failure triple — and an exception raised
while building the query is converted into a null-coordinate result whose
error message carries the exception text. -/
theorem C10_safe_geocode_total (res : Resolver) (cm : ColMap) (r : Row) :
    ((∃ la lo, safe_geocode res cm r = (some la, some lo, none)) ∨
      (∃ m, safe_geocode res cm r = (none, none, some m))) ∧
    (∀ e, buildQuery cm r = .error e →
      safe_geocode res cm r = (none, none, some ("Unexpected error: " ++ e))) :=
  ⟨safe_geocode_cases res cm r, fun e he => safe_geocode_of_error res cm r e he⟩

/-- Witness for C10 at a row whose City cell is NaN: the join raises and the
wrapper converts the exception to a null-coordinate error result. -/
theorem C10_witness :
    safe_geocode resolverNone cmCSZ rowNanCity =
      (none, none,
        some "Unexpected error: sequence item: expected str instance, float found") :=
  (C10_safe_geocode_total resolverNone cmCSZ rowNanCity).2 _ rfl

/-- C7 (amended): among string-valued cells the resolver query is built from
exactly the populated key fields — empty strings are skipped — and a row
whose street-address cell is the empty string (in particular a dataset whose
column map has no Address entry) still gets a query built from the remaining
fields and is resolved, not skipped.  An absent (NaN) cell, however, is not
skipped: it is truthy, survives `filter(None, ...)`, makes the join raise,
and the row fails with an "Unexpected error" without any resolver call. -/
theorem C7_query_from_populated_fields :
    (∀ vs : List String, pyFilterJoin (vs.map Val.str) =
        .ok (String.intercalate ", " (vs.filter fun s => !s.isEmpty))) ∧
    (∀ (res : Resolver) (cm : ColMap) (r : Row) (c s z : String) (la lo : Int),
      getAddrVal cm r = .str "" → r.cityV = .str c → r.stateV = .str s →
      r.zipV = .str z → c ≠ "" → s ≠ "" → z ≠ "" →
      buildQuery cm r = .ok (String.intercalate ", " [c, s, z]) ∧
      (res (String.intercalate ", " [c, s, z]) = .found la lo →
        safe_geocode res cm r = (some la, some lo, none))) ∧
    (∀ (res : Resolver) (cm : ColMap) (r : Row),
      Val.nan ∈ [getAddrVal cm r, r.cityV, r.stateV, r.zipV] →
      ∃ e, buildQuery cm r = .error e ∧
        safe_geocode res cm r = (none, none, some ("Unexpected error: " ++ e)) ∧
        queryOk cm r = false) := by
  refine ⟨pyFilterJoin_str, ?_, ?_⟩
  · intro res cm r c s z la lo ha hc hs hz hcne hsne hzne
    have hce : c.isEmpty = false := by
      cases hb : c.isEmpty
      · rfl
      · exact absurd ((String.isEmpty_iff c).mp hb) hcne
    have hse : s.isEmpty = false := by
      cases hb : s.isEmpty
      · rfl
      · exact absurd ((String.isEmpty_iff s).mp hb) hsne
    have hze : z.isEmpty = false := by
      cases hb : z.isEmpty
      · rfl
      · exact absurd ((String.isEmpty_iff z).mp hb) hzne
    have hq : buildQuery cm r = .ok (String.intercalate ", " [c, s, z]) := by
      unfold buildQuery
      rw [ha, hc, hs, hz]
      rw [show ([Val.str "", Val.str c, Val.str s, Val.str z] : List Val)
            = (["", c, s, z].map Val.str) from rfl]
      rw [pyFilterJoin_str]
      simp [List.filter, hce, hse, hze, show ("".isEmpty) = true from rfl]
    exact ⟨hq, fun hr => safe_geocode_found res cm r _ la lo hq hr⟩
  · intro res cm r hnan
    obtain ⟨e, he⟩ := pyFilterJoin_error_of_nan _ hnan
    exact ⟨e, he, safe_geocode_of_error res cm r e he,
      queryOk_false_of_error cm r e he⟩

/-- Counterexample for C7 as originally stated: a poi-style row with an
absent (NaN) Address cell and populated city/state/zip does not get a
resolver query built from the remaining fields — no query is built, the
resolver (which would locate "Springfield, IL, 62701") is never invoked,
and the row fails with an "Unexpected error". -/
theorem C7_nan_field_not_skipped_eval :
    safe_geocode resolverSpringfield cmAddr rowNanAddress =
      (none, none,
        some "Unexpected error: sequence item: expected str instance, float found") ∧
    queryOk cmAddr rowNanAddress = false := by
  decide

/-- Witness for C7: the Springfield row has an empty-string street address,
yet its query is "Springfield, IL, 62701" and the resolver's answer lands in
the row; a NaN city instead makes the row fail without a resolver call. -/
theorem C7_witness :
    buildQuery cmCSZ freshSpringfield = .ok "Springfield, IL, 62701" ∧
    safe_geocode resolverSpringfield cmCSZ freshSpringfield =
      (some 39, some (-89), none) ∧
    queryOk cmCSZ rowNanCity = false := by
  have h := (C7_query_from_populated_fields).2.1 resolverSpringfield cmCSZ
    freshSpringfield "Springfield" "IL" "62701" 39 (-89) rfl rfl rfl rfl
    (by decide) (by decide) (by decide)
  obtain ⟨e, _, _, hqok⟩ :=
    (C7_query_from_populated_fields).2.2 resolverNone cmCSZ rowNanCity
      (by decide)
  exact ⟨h.1, h.2 (by decide), hqok⟩

/-- C6: a work-set row whose resolver invocation fails — location not found,
or an operational fault raised — gets null coordinates and a human-readable
error message; every work-set row is processed (one result per row) and a
nonempty work set always ends in a persisted output, whatever the resolver
does. -/
theorem C6_failures_recorded_batch_continues :
    (∀ (res : Resolver) (cm : ColMap) (r : Row) (q : String),
      buildQuery cm r = .ok q → res q = .notFound →
      safe_geocode res cm r = (none, none, some "Location not found")) ∧
    (∀ (res : Resolver) (cm : ColMap) (r : Row) (q m : String),
      buildQuery cm r = .ok q → res q = .raises m →
      safe_geocode res cm r =
        (none, none, some ("Error geocoding address '" ++ q ++ "': " ++ m))) ∧
    (∀ (res : Resolver) (cm : ColMap) (work : List Row),
      (geocodedRows res cm work).length = work.length) ∧
    (∀ (res : Resolver) (cm : ColMap) (d : DataFrame) (prior : Option DataFrame),
      workSet cm d prior ≠ [] → (process_geocoding res cm d prior).written ≠ none) := by
  refine ⟨safe_geocode_notFound, safe_geocode_raises,
    fun res cm work => List.length_map _ _, ?_⟩
  intro res cm d prior hne
  cases prior with
  | none =>
      have hne2 : (dfRows d).filter needsProcessing ≠ [] := hne
      simp only [process_geocoding, processNoPrior]
      rw [isEmpty_eq_false_of_ne _ hne2]
      simp
  | some p =>
      have hne2 : (dfToGeocodePrior cm d p.rows).filter needsProcessing ≠ [] := hne
      simp only [process_geocoding, processWithPrior]
      rw [isEmpty_eq_false_of_ne _ hne2]
      simp

/-- Witness for C6: a not-found row and a raising row both produce
null-coordinate error results, and the failing batch is still persisted. -/
theorem C6_witness :
    safe_geocode resolverNone cmCSZ freshRowK =
      (none, none, some "Location not found") ∧
    safe_geocode resolverRaises cmCSZ freshRowK =
      (none, none, some "Error geocoding address 'K, S, 5': timeout") ∧
    (process_geocoding resolverNone cmCSZ frameK none).written ≠ none :=
  ⟨C6_failures_recorded_batch_continues.1 resolverNone cmCSZ freshRowK
      "K, S, 5" rfl rfl,
   C6_failures_recorded_batch_continues.2.1 resolverRaises cmCSZ freshRowK
      "K, S, 5" "timeout" rfl rfl,
   C6_failures_recorded_batch_continues.2.2.2 resolverNone cmCSZ frameK none
      (by decide)⟩

/-- C9: whatever result columns the input dataset has, the frame prepared for
resolution carries all three of Latitude/Longitude/Error, absent ones filled
with nulls before any resolution, and the persisted output of a first run
carries all three columns. -/
theorem C9_result_columns_ensured (d : DataFrame) :
    (ensureCols d).hasLat = true ∧ (ensureCols d).hasLon = true ∧
    (ensureCols d).hasErr = true ∧
    (ensureCols d).rows.length = d.rows.length ∧
    (∀ r ∈ (ensureCols d).rows,
      (d.hasLat = false → r.lat = none) ∧ (d.hasLon = false → r.lon = none) ∧
      (d.hasErr = false → r.err = none)) ∧
    (∀ (res : Resolver) (cm : ColMap) (out : DataFrame),
      (processNoPrior res cm d).written = some out →
      out.hasLat = true ∧ out.hasLon = true ∧ out.hasErr = true) := by
  refine ⟨rfl, rfl, rfl, List.length_map _ _, ?_, ?_⟩
  · intro r hr
    obtain ⟨r0, _, rfl⟩ := List.mem_map.mp hr
    exact ⟨fun h => by simp [h], fun h => by simp [h], fun h => by simp [h]⟩
  · intro res cm out h
    simp only [processNoPrior] at h
    split at h
    · simp at h
    · dsimp only at h
      injection h with h2
      rw [← h2]
      exact ⟨rfl, rfl, rfl⟩

/-- Witness for C9 at a CSV with none of the three columns: the prepared
frame has the Latitude column and the prepared row's coordinates are null. -/
theorem C9_witness :
    (ensureCols frameNoCols).hasLat = true ∧
    ({ rowWithCoords with lat := none, lon := none, err := none } : Row).lat = none :=
  ⟨(C9_result_columns_ensured frameNoCols).1,
   ((C9_result_columns_ensured frameNoCols).2.2.2.2.1
      { rowWithCoords with lat := none, lon := none, err := none }
      (by decide)).1 rfl⟩

/-- C1: evaluation of the run refuting key-tuple identity in the merge.
Prior state: the resolved row (A, S, 1) at index label 0.  Fresh input: the
new key (B, S, 2) at index label 0.  The merge loop writes (B, S, 2)'s
resolver result over the prior (A, S, 1) row — identity is taken from the
index label, not the key tuple — and the work-set row with the unmatched
key (B, S, 2) is never appended. -/
theorem C1_merge_is_by_index_eval :
    (processWithPrior resolverFindsB cmCSZ frameB [priorRowA]).written =
      some ⟨true, true, true, [{ priorRowA with lat := some 3, lon := some 4 }]⟩ ∧
    ((processWithPrior resolverFindsB cmCSZ frameB [priorRowA]).written.map
        fun f => decide (rowKey cmCSZ freshRowB ∈ f.rows.map (rowKey cmCSZ))) =
      some false := by
  decide

/-- C2: evaluation of a run losing a fresh-input key.  The key (B, S, 2) is
present in the fresh input, yet absent from the persisted output of the
run against the prior state holding only (A, S, 1). -/
theorem C2_fresh_key_lost_eval :
    rowKey cmCSZ freshRowB ∈ (dfRows frameB).map (rowKey cmCSZ) ∧
    ((processWithPrior resolverFindsB cmCSZ frameB [priorRowA]).written.map
        fun f => decide (rowKey cmCSZ freshRowB ∈ f.rows.map (rowKey cmCSZ))) =
      some false := by
  decide

/-- C3: evaluation of a run producing a duplicated key tuple.  The fresh
input adds the new keys (C, S, 3) and (D, S, 4) at index labels absent from
the prior state; the merge appends each through `.loc` enlargement as a row
whose key columns are all NaN, so the all-NaN key tuple occurs twice in the
persisted output. -/
theorem C3_duplicate_key_eval :
    ((processWithPrior resolverNone cmCSZ frameACD [priorRowA]).written.map
        fun f => (f.rows.map (rowKey cmCSZ)).count [Val.nan, Val.nan, Val.nan]) =
      some 2 := by
  decide

/-- C4 counterexample: with one fresh row whose resolution fails, the second
run immediately after the first — same fresh input, same resolver — has a
nonempty work set, makes one resolver call, and rewrites the output file,
contradicting the claim that pass 2 is always empty-work-set with no
external calls. -/
theorem C4_second_run_retries_failures :
    (process_geocoding resolverNone cmCSZ frameK
        ((process_geocoding resolverNone cmCSZ frameK none).written)).calls = 1 ∧
    (process_geocoding resolverNone cmCSZ frameK
        ((process_geocoding resolverNone cmCSZ frameK none).written)).written ≠
      none := by
  decide

/-- C8: when a prior persisted state exists, the merge writes only the
Latitude/Longitude/Error columns of existing rows: every prior-state row is
still present at its position in the output, with its index label, all key
fields, and every other column unchanged from the loaded prior state. -/
theorem C8_merge_touches_only_result_columns (res : Resolver) (cm : ColMap)
    (d : DataFrame) (existing : List Row) (out : DataFrame)
    (h : (processWithPrior res cm d existing).written = some out) :
    existing.length ≤ out.rows.length ∧
    ∀ i, i < existing.length →
      (out.rows[i]?).map frameFields = (existing[i]?).map frameFields := by
  simp only [processWithPrior] at h
  split at h
  · simp at h
  · dsimp only at h
    injection h with h2
    rw [← h2]
    constructor
    · calc existing.length = (existing.map clearErrIfCoords).length :=
            (List.length_map _ _).symm
        _ ≤ _ := merge_length _ _
    · intro i hi
      have hi1 : i < (existing.map clearErrIfCoords).length := by
        rwa [List.length_map]
      rw [merge_frame _ _ i hi1, List.getElem?_map]
      cases he : existing[i]? with
      | none => rfl
      | some e => simp [frameFields_clearErr]

/-- Witness for C8: in the index-collision run, the prior row keeps its
label, key fields and payload at position 0 even though its coordinates were
overwritten. -/
theorem C8_witness :
    1 ≤ mergedFrameB.rows.length ∧
    (mergedFrameB.rows[0]?).map frameFields =
      (([priorRowA] : List Row)[0]?).map frameFields := by
  have h := C8_merge_touches_only_result_columns resolverFindsB cmCSZ frameB
    [priorRowA] mergedFrameB (by decide)
  exact ⟨h.1, h.2 0 (by decide)⟩

/-- C5: in the final output of every run, a record holding both coordinates
has a null error; and a persisted row carrying an error whose resolver call
succeeds in this run ends with its error cleared in the output row at its
label. -/
theorem C5_coords_present_implies_error_null (res : Resolver) (cm : ColMap)
    (d : DataFrame) (prior : Option DataFrame) (out : DataFrame)
    (h : (process_geocoding res cm d prior).written = some out) :
    (∀ r ∈ out.rows, errConsistent r) ∧
    (∀ (p : DataFrame) (r : Row) (q : String) (la lo : Int),
      prior = some p → r ∈ workSet cm d prior →
      r.idx ∈ p.rows.map Row.idx → buildQuery cm r = .ok q →
      res q = .found la lo →
      ∃ rr, lookupIdx out.rows r.idx = some rr ∧ rr.err = none) := by
  constructor
  · cases prior with
    | none =>
        simp only [process_geocoding, processNoPrior] at h
        split at h
        · simp at h
        · dsimp only at h
          injection h with h2
          rw [← h2]
          intro r hr
          rcases mem_dropDup_append cm _ _ r hr with h3 | ⟨h3, h4⟩
          · obtain ⟨g, _, rfl⟩ := List.mem_map.mp h3
            exact errConsistent_clearErr g
          · by_cases herr : r.err = none
            · intro _ _
              exact herr
            · exfalso
              have hneed : needsProcessing r = true := by
                unfold needsProcessing
                cases he : r.err with
                | none => exact absurd he herr
                | some m => simp [he]
              apply h4
              refine List.mem_map.mpr
                ⟨clearErrIfCoords (applyGeo (safe_geocode res cm r) r), ?_, ?_⟩
              · exact List.mem_map.mpr ⟨applyGeo (safe_geocode res cm r) r,
                  List.mem_map.mpr ⟨r, List.mem_filter.mpr ⟨h3, hneed⟩, rfl⟩, rfl⟩
              · rw [rowKey_clearErr, rowKey_applyGeo]
    | some p =>
        simp only [process_geocoding, processWithPrior] at h
        split at h
        · simp at h
        · dsimp only at h
          injection h with h2
          rw [← h2]
          exact errConsistent_merge _ _
            (fun a ha => by
              obtain ⟨e, _, rfl⟩ := List.mem_map.mp ha
              exact errConsistent_clearErr e)
            (errConsistent_postClear _ _ (errConsistent_geocoded res cm _))
  · intro p r q la lo hp hw hidx hq hres2
    subst hp
    simp only [process_geocoding, processWithPrior] at h
    split at h
    · next hemp =>
        exfalso
        have hnil : (dfToGeocodePrior cm d p.rows).filter needsProcessing = [] :=
          eq_nil_of_isEmpty _ hemp
        have hw2 : r ∈ (dfToGeocodePrior cm d p.rows).filter needsProcessing := hw
        rw [hnil] at hw2
        simp at hw2
    · dsimp only at h
      injection h with h2
      rw [← h2]
      have hw2 : r ∈ (dfToGeocodePrior cm d p.rows).filter needsProcessing := hw
      have hsg : safe_geocode res cm r = (some la, some lo, none) :=
        safe_geocode_found res cm r q la lo hq hres2
      have hGmem : applyGeo (safe_geocode res cm r) r ∈
          geocodedRows res cm
            ((dfToGeocodePrior cm d p.rows).filter needsProcessing) :=
        List.mem_map.mpr ⟨r, hw2, rfl⟩
      apply lookup_merge_err_none
      · intro g hg hgi
        obtain ⟨g0, hg0, rfl⟩ := List.mem_map.mp hg
        have hg0i : g0.idx = r.idx := by
          split at hgi <;> exact hgi
        have hc : (geocodedRows res cm
              ((dfToGeocodePrior cm d p.rows).filter needsProcessing)).any
            (fun hh => hh.idx == g0.idx && decide (hh.idx ∈ p.rows.map Row.idx)
              && hh.lat.isSome && hh.lon.isSome) = true := by
          refine List.any_eq_true.mpr ⟨applyGeo (safe_geocode res cm r) r, hGmem, ?_⟩
          rw [hsg]
          simp [applyGeo, hg0i, hidx]
        rw [if_pos hc]
      · left
        refine ⟨_, List.mem_map.mpr ⟨applyGeo (safe_geocode res cm r) r, hGmem, rfl⟩, ?_⟩
        split <;> rfl

/-- Witness for C5, the spec's Springfield scenario: the persisted row with
an error is re-resolved successfully and its error ends null in the output
row at its label. -/
theorem C5_witness :
    (lookupIdx outSpringfield.rows priorSpringfield.idx).map Row.err =
      some none := by
  obtain ⟨rr, h1, h2⟩ :=
    (C5_coords_present_implies_error_null resolverSpringfield cmCSZ
        frameSpringfield (some priorFrameSpringfield) outSpringfield
        (by decide)).2
      priorFrameSpringfield priorSpringfield "Springfield, IL, 62701" 39 (-89)
      rfl (by decide) (by decide) rfl (by decide)
  rw [h1, Option.map_some', h2]

/-- C4 (amended): if every row of the fresh input has string-valued key
fields and the resolver locates every query, then immediately re-running
`process_geocoding` on the first run's persisted output short-circuits: the
second run's work set is empty, it makes zero resolver calls, and it leaves
the persisted state untouched. -/
theorem C4_idempotent_after_clean_run (res : Resolver) (cm : ColMap)
    (d : DataFrame)
    (hres : ∀ q, ∃ la lo, res q = .found la lo)
    (hgood : ∀ r ∈ d.rows, goodRow r = true) :
    process_geocoding res cm d ((process_geocoding res cm d none).written) =
      { written := none, calls := 0 } := by
  have hgood2 := goodRow_dfRows d hgood
  have hsucc : ∀ r ∈ dfRows d,
      resolvedRow (applyGeo (safe_geocode res cm r) r) = true := by
    intro r hr
    obtain ⟨q, hq⟩ := buildQuery_ok_of_goodRow cm r (hgood2 r hr)
    obtain ⟨la, lo, hr2⟩ := hres q
    rw [safe_geocode_found res cm r q la lo hq hr2]
    rfl
  by_cases hemp : ((dfRows d).filter needsProcessing).isEmpty = true
  · have h1 : processNoPrior res cm d = ⟨none, 0⟩ := by
      simp only [processNoPrior]
      rw [hemp]
      simp
    rw [show process_geocoding res cm d none = processNoPrior res cm d from rfl, h1]
    exact h1
  · have hempf : ((dfRows d).filter needsProcessing).isEmpty = false := by
      cases hb : ((dfRows d).filter needsProcessing).isEmpty
      · rfl
      · exact absurd hb hemp
    have h1 : (processNoPrior res cm d).written =
        some ⟨true, true, true, dropDupKeepLast cm (dfRows d ++
          (geocodedRows res cm ((dfRows d).filter needsProcessing)).map
            clearErrIfCoords)⟩ := by
      simp only [processNoPrior]
      rw [hempf]
      simp
    set outRows := dropDupKeepLast cm (dfRows d ++
      (geocodedRows res cm ((dfRows d).filter needsProcessing)).map
        clearErrIfCoords) with hout
    have hresolved : ∀ r ∈ outRows, resolvedRow r = true := by
      intro r hr
      rw [hout] at hr
      rcases mem_dropDup_append cm _ _ r hr with h2 | ⟨h2, h3⟩
      · obtain ⟨g, hg, rfl⟩ := List.mem_map.mp h2
        obtain ⟨r0, hr0, rfl⟩ := List.mem_map.mp hg
        rw [resolvedRow_clearErr]
        exact hsucc r0 (List.mem_filter.mp hr0).1
      · by_contra hnr
        have hneed := needsProcessing_of_not_resolved r hnr
        apply h3
        exact List.mem_map.mpr
          ⟨clearErrIfCoords (applyGeo (safe_geocode res cm r) r),
            List.mem_map.mpr ⟨applyGeo (safe_geocode res cm r) r,
              List.mem_map.mpr ⟨r, List.mem_filter.mpr ⟨h2, hneed⟩, rfl⟩, rfl⟩,
            by rw [rowKey_clearErr, rowKey_applyGeo]⟩
    have hkeys : ∀ r ∈ dfRows d, rowKey cm r ∈ outRows.map (rowKey cm) := by
      intro r hr
      rw [hout, key_mem_dropDup, List.map_append]
      exact List.mem_append_left _ (List.mem_map.mpr ⟨r, hr, rfl⟩)
    have hrtp : (outRows.map clearErrIfCoords).filter needsProcessing = [] := by
      refine List.filter_eq_nil_iff.mpr ?_
      intro a ha
      obtain ⟨e, he, rfl⟩ := List.mem_map.mp ha
      simp [needsProcessing_clearErr_of_resolved e (hresolved e he)]
    have hnew : (dfRows d).filter
        (fun r => !decide (rowKey cm r ∈
          (outRows.map clearErrIfCoords).map (rowKey cm))) = [] := by
      refine List.filter_eq_nil_iff.mpr ?_
      intro a ha
      have hk : rowKey cm a ∈ (outRows.map clearErrIfCoords).map (rowKey cm) := by
        rw [map_rowKey_clearErr]
        exact hkeys a ha
      rw [decide_eq_true hk]
      simp
    rw [show process_geocoding res cm d none = processNoPrior res cm d from rfl, h1]
    show processWithPrior res cm d outRows = ⟨none, 0⟩
    simp only [processWithPrior, dfToGeocodePrior]
    rw [hrtp, hnew]
    rfl

/-- Witness for C4: with a resolver that finds everything, re-running on the
first run's output writes nothing and makes zero resolver calls. -/
theorem C4_witness :
    process_geocoding resolverAll cmCSZ frameK
        ((process_geocoding resolverAll cmCSZ frameK none).written) =
      { written := none, calls := 0 } :=
  C4_idempotent_after_clean_run resolverAll cmCSZ frameK
    (fun q => ⟨3, 4, rfl⟩) (by decide)

end IsochroneMaps
